import Mathlib

/-!
Shallow embedding of the distang-backend core: the consent model
(src/models/Consent.model.ts), the consent middleware
(src/middlewares/consent.middleware.ts), the pairing state machine and
breakup cascade (src/controllers/chat.controller.ts), the consent update
controller (src/controllers/consent.controller.ts), and the streak /
ephemeral photo store (src/controllers/streak.controller.ts,
src/models/Streak.model.ts, src/models/Review.model.ts).

Mongo documents become Lean structures; ObjectIds become `Nat`; `Date`
values become `Nat` milliseconds since epoch; collections become lists
inside one `AppState`; `findById` / `findOne` become `List.find?` and
`doc.save()` becomes an id-keyed in-place replacement.  `setHours(0,0,0,0)`
(local midnight truncation) is modelled as truncation to a multiple of
86400000 ms, i.e. one fixed reference timezone.
-/

deriving instance DecidableEq for Except

/-- JavaScript `s.toUpperCase()`, for the ASCII pairing codes the app uses. -/
def jsToUpper (s : String) : String := ⟨s.data.map Char.toUpper⟩

/-- JavaScript `s.trim()`: strip leading and trailing whitespace. -/
def jsTrim (s : String) : String :=
  ⟨((s.data.dropWhile Char.isWhitespace).reverse.dropWhile Char.isWhitespace).reverse⟩

/-- One day in milliseconds (`24 * 60 * 60 * 1000` in the source). -/
def msPerDay : Nat := 86400000

/-- Midnight truncation of a timestamp, modelling `d.setHours(0, 0, 0, 0)`. -/
def dayStart (t : Nat) : Nat := t / msPerDay * msPerDay

/-- ConsentType enum from Consent.model.ts. -/
inductive ConsentType
  | photoSharing
  | memoryAccess
  | locationSharing
deriving DecidableEq

/-- IPartnerConsent sub-document from Consent.model.ts (flags default false). -/
structure PartnerConsent where
  userId : Nat
  photoSharing : Bool := false
  memoryAccess : Bool := false
  locationSharing : Bool := false
  lastUpdated : Nat := 0
deriving DecidableEq

/-- IConsentHistory entry from Consent.model.ts. -/
structure ConsentHistoryEntry where
  consentType : ConsentType
  enabled : Bool
  userId : Nat
  timestamp : Nat
deriving DecidableEq

/-- IConsent document from Consent.model.ts. -/
structure Consent where
  coupleId : Nat
  partner1Consent : PartnerConsent
  partner2Consent : PartnerConsent
  history : List ConsentHistoryEntry := []
deriving DecidableEq

/-- ConsentSchema.methods.isFeatureEnabled (Consent.model.ts, lines 130-146):
a feature is enabled iff both partners' stored flag for it is true. -/
def isFeatureEnabled (c : Consent) (featureType : ConsentType) : Bool :=
  let p1 := c.partner1Consent
  let p2 := c.partner2Consent
  match featureType with
  | .photoSharing => p1.photoSharing && p2.photoSharing
  | .memoryAccess => p1.memoryAccess && p2.memoryAccess
  | .locationSharing => p1.locationSharing && p2.locationSharing

/-- Reading a single stored flag of one partner's consent half. -/
def flagFor (p : PartnerConsent) (t : ConsentType) : Bool :=
  match t with
  | .photoSharing => p.photoSharing
  | .memoryAccess => p.memoryAccess
  | .locationSharing => p.locationSharing

/-- The flag-update core of updateConsent (consent.controller.ts): each of the
three body fields is optional; a provided value that differs from the caller's
current stored flag is written and recorded in the append-only history, a
provided identical value writes nothing; `lastUpdated` is stamped
unconditionally.  The half to update is chosen by comparing
`partner1Consent.userId` with the caller (the `isPartner1` test). -/
def applyConsentUpdate (consent : Consent) (uid : Nat)
    (photoSharing? memoryAccess? locationSharing? : Option Bool) (now : Nat) : Consent :=
  let isPartner1 := consent.partner1Consent.userId == uid
  let pc := if isPartner1 then consent.partner1Consent else consent.partner2Consent
  let step1 : PartnerConsent × List (ConsentType × Bool) :=
    match photoSharing? with
    | some v => if v != pc.photoSharing
        then ({ pc with photoSharing := v }, [(ConsentType.photoSharing, v)])
        else (pc, [])
    | none => (pc, [])
  let step2 : PartnerConsent × List (ConsentType × Bool) :=
    match memoryAccess? with
    | some v => if v != step1.1.memoryAccess
        then ({ step1.1 with memoryAccess := v }, step1.2 ++ [(ConsentType.memoryAccess, v)])
        else step1
    | none => step1
  let step3 : PartnerConsent × List (ConsentType × Bool) :=
    match locationSharing? with
    | some v => if v != step2.1.locationSharing
        then ({ step2.1 with locationSharing := v }, step2.2 ++ [(ConsentType.locationSharing, v)])
        else step2
    | none => step2
  let pc' := { step3.1 with lastUpdated := now }
  let history' := consent.history ++
    step3.2.map (fun ch => { consentType := ch.1, enabled := ch.2, userId := uid, timestamp := now })
  if isPartner1 then { consent with partner1Consent := pc', history := history' }
  else { consent with partner2Consent := pc', history := history' }

/-- RelationshipStatus enum from User.model.ts. -/
inductive RelationshipStatus
  | single
  | paired
deriving DecidableEq

/-- IRelationshipHistory entry from User.model.ts: the permanent record each
partner gains at dissolution. -/
structure RelationshipHistoryEntry where
  partnerName : String
  partnerUniqueId : String
  startDate : Nat
  endDate : Nat
  durationDays : Int
  initiatedBreakup : Bool
deriving DecidableEq

/-- IUser document (User.model.ts), restricted to the fields the pairing,
consent and streak core reads or writes. -/
structure User where
  id : Nat
  uniqueId : String
  name : String
  relationshipStatus : RelationshipStatus := .single
  coupleId : Option Nat := none
  relationshipHistory : List RelationshipHistoryEntry := []
  pastRelationshipExists : Bool := false
deriving DecidableEq

/-- CoupleStatus enum from Couple.model.ts. -/
inductive CoupleStatus
  | pending
  | active
  | dissolved
deriving DecidableEq

/-- Status values of the embedded pair request ('pending' | 'accepted' |
'rejected' in Couple.model.ts). -/
inductive ReqStatus
  | pending
  | accepted
  | rejected
deriving DecidableEq

/-- IPairRequest sub-document embedded in a Couple (Couple.model.ts). -/
structure PairRequest where
  fromUserId : Nat
  toUserId : Nat
  status : ReqStatus
  createdAt : Nat
  respondedAt : Option Nat := none
deriving DecidableEq

/-- ICouple document (Couple.model.ts).  `id` models the Mongo `_id` that
`User.coupleId` references and `findById` resolves; `coupleId` models the
human-shareable CPL- code the accept/reject endpoints look up by. -/
structure Couple where
  id : Nat
  coupleId : Nat
  partner1 : Nat
  partner2 : Nat
  status : CoupleStatus
  pairRequest : PairRequest
  pairingDate : Option Nat := none
  relationshipStartDate : Option Nat := none
  dissolutionDate : Option Nat := none
  createdAt : Nat
deriving DecidableEq

/-- MemoryStatus enum from Memory.model.ts. -/
inductive MemoryStatus
  | active
  | archived
  | deleted
deriving DecidableEq

/-- IMemory document (Memory.model.ts), restricted to the fields the breakup
cascade touches. -/
structure Memory where
  id : Nat
  coupleId : Nat
  uploadedBy : Nat
  status : MemoryStatus
deriving DecidableEq

/-- IReview document (Review.model.ts).  The schema holds only the couple
reference and the text: there deliberately is no author field at all. -/
structure Review where
  coupleId : Nat
  reviewText : String
deriving DecidableEq

/-- IStreakPhoto document (Streak.model.ts). -/
structure StreakPhoto where
  id : Nat
  coupleId : Nat
  uploadedBy : Nat
  imagePath : String
  expiresAt : Nat
  viewedAt : Option Nat := none
  viewedBy : Option Nat := none
  isExpired : Bool := false
  createdAt : Nat
deriving DecidableEq

/-- IStreak counter document (Streak.model.ts); all fields carry the schema
defaults of a freshly constructed `new Streak({ coupleId })`. -/
structure Streak where
  coupleId : Nat
  currentStreak : Nat := 0
  longestStreak : Nat := 0
  lastStreakDate : Option Nat := none
  partner1LastPhoto : Option Nat := none
  partner2LastPhoto : Option Nat := none
deriving DecidableEq

/-- The document database: one list per collection, plus a counter supplying
fresh Mongo ids (and CPL- codes) for newly created documents. -/
structure AppState where
  users : List User := []
  couples : List Couple := []
  consents : List Consent := []
  memories : List Memory := []
  reviews : List Review := []
  streaks : List Streak := []
  streakPhotos : List StreakPhoto := []
  nextId : Nat := 0
deriving DecidableEq

/-- Mongoose `save()` on a loaded document: replace the stored documents
carrying the same key by the updated one. -/
def replaceBy {α : Type} (key : α → Nat) (l : List α) (m : α) : List α :=
  l.map (fun x => if key x == key m then m else x)

/-- Couple.findById. -/
def findCoupleById (s : AppState) (cid : Nat) : Option Couple :=
  s.couples.find? (fun c => c.id == cid)

/-- User.findById. -/
def findUserById (s : AppState) (uid : Nat) : Option User :=
  s.users.find? (fun u => u.id == uid)

/-- Consent.findOne({ coupleId }). -/
def findConsentByCoupleId (s : AppState) (cid : Nat) : Option Consent :=
  s.consents.find? (fun c => c.coupleId == cid)

/-- StreakPhoto.findById. -/
def findPhotoById (s : AppState) (pid : Nat) : Option StreakPhoto :=
  s.streakPhotos.find? (fun p => p.id == pid)

/-- Streak.findOne({ coupleId }). -/
def findStreakByCoupleId (s : AppState) (cid : Nat) : Option Streak :=
  s.streaks.find? (fun st => st.coupleId == cid)

/-- couple.save(). -/
def saveCouple (s : AppState) (c : Couple) : AppState :=
  { s with couples := replaceBy Couple.id s.couples c }

/-- user.save(). -/
def saveUser (s : AppState) (u : User) : AppState :=
  { s with users := replaceBy User.id s.users u }

/-- photo.save(). -/
def savePhoto (s : AppState) (p : StreakPhoto) : AppState :=
  { s with streakPhotos := replaceBy StreakPhoto.id s.streakPhotos p }

/-- Argument triple that asks updateConsent to set exactly the one toggle `t`
to false, leaving the other two absent from the request body. -/
def setFalseArgs (t : ConsentType) : Option Bool × Option Bool × Option Bool :=
  match t with
  | .photoSharing => (some false, none, none)
  | .memoryAccess => (none, some false, none)
  | .locationSharing => (none, none, some false)

/-- GateError: the failure kinds of the requireConsent middleware
(consent.middleware.ts), in the order the guard tests them: 401
Authentication required; 403 must-be-in-a-relationship; 403 relationship not
active; 403 consent settings not found; 403 mutual-consent-required naming
the feature. -/
inductive GateError
  | unauthenticated
  | noActiveRelationship
  | relationshipNotActive
  | consentNotConfigured
  | consentRequired (feature : ConsentType)
deriving DecidableEq

/-- What requireConsent attaches to the request on success (`req.couple`,
`req.consent`) for downstream reuse. -/
structure GateOk where
  couple : Couple
  consent : Consent
deriving DecidableEq

/-- requireConsent(consentType) from consent.middleware.ts, lines 18-91:
authenticated user; user.coupleId present; couple loaded and ACTIVE (one
combined test, `!couple || couple.status !== ACTIVE`); consent record
present; isFeatureEnabled true; then the couple and consent are exposed. -/
def requireConsent (consentType : ConsentType) (user? : Option User) (s : AppState) :
    Except GateError GateOk :=
  match user? with
  | none => .error .unauthenticated
  | some user =>
    match user.coupleId with
    | none => .error .noActiveRelationship
    | some cid =>
      match findCoupleById s cid with
      | none => .error .relationshipNotActive
      | some couple =>
        if couple.status ≠ CoupleStatus.active then .error .relationshipNotActive
        else
          match findConsentByCoupleId s couple.id with
          | none => .error .consentNotConfigured
          | some consent =>
            if isFeatureEnabled consent consentType
            then .ok { couple := couple, consent := consent }
            else .error (.consentRequired consentType)

/-- Failure kinds of sendPairRequest (chat.controller.ts, lines 576-697), in
the order the handler tests them. -/
inductive PairError
  | unauthenticated
  | alreadyPaired
  | pendingRequestExists
  | partnerNotFound
  | selfPairing
  | partnerAlreadyPaired
  | duplicatePairRequest
deriving DecidableEq

/-- sendPairRequest (chat.controller.ts): reject a PAIRED caller; reject a
caller with an outgoing pending request; resolve the target by upper-cased
unique code; reject self-pairing; reject a PAIRED target; reject when a
pending couple already links the pair in either orientation; else create a
PENDING Couple embedding a pending request from caller to target. -/
def sendPairRequest (s : AppState) (user? : Option User) (partnerUniqueId : String)
    (now : Nat) : Except PairError (AppState × Couple) :=
  match user? with
  | none => .error .unauthenticated
  | some user =>
    if user.relationshipStatus == RelationshipStatus.paired then .error .alreadyPaired
    else if (s.couples.find? (fun c =>
        c.pairRequest.fromUserId == user.id && c.pairRequest.status == ReqStatus.pending)).isSome
    then .error .pendingRequestExists
    else
      match s.users.find? (fun u => u.uniqueId == jsToUpper partnerUniqueId) with
      | none => .error .partnerNotFound
      | some partner =>
        if partner.id == user.id then .error .selfPairing
        else if partner.relationshipStatus == RelationshipStatus.paired then
          .error .partnerAlreadyPaired
        else if (s.couples.find? (fun c =>
            ((c.partner1 == user.id && c.partner2 == partner.id) ||
             (c.partner1 == partner.id && c.partner2 == user.id)) &&
            c.pairRequest.status == ReqStatus.pending)).isSome
        then .error .duplicatePairRequest
        else
          let couple : Couple :=
            { id := s.nextId, coupleId := s.nextId,
              partner1 := user.id, partner2 := partner.id,
              status := .pending,
              pairRequest :=
                { fromUserId := user.id, toUserId := partner.id,
                  status := .pending, createdAt := now },
              createdAt := now }
          .ok ({ s with couples := s.couples ++ [couple], nextId := s.nextId + 1 }, couple)

/-- Failure kinds of acceptPairRequest / rejectPairRequest
(chat.controller.ts): the 404 case is one combined "Pair request not found or
already responded to." outcome. -/
inductive RespondError
  | unauthenticated
  | requestNotFound
deriving DecidableEq

/-- The fresh all-false consent record acceptPairRequest creates
(chat.controller.ts, lines 749-768); `lastUpdated` carries the creation
instant via the schema default. -/
def freshConsent (couple : Couple) (now : Nat) : Consent :=
  { coupleId := couple.id,
    partner1Consent :=
      { userId := couple.partner1, photoSharing := false, memoryAccess := false,
        locationSharing := false, lastUpdated := now },
    partner2Consent :=
      { userId := couple.partner2, photoSharing := false, memoryAccess := false,
        locationSharing := false, lastUpdated := now },
    history := [] }

/-- acceptPairRequest (chat.controller.ts, lines 702-794): look up the couple
by CPL code whose embedded request targets the responder and is still
pending; flip it to ACTIVE with the request accepted and the pairing date
stamped; mark the request sender (if resolvable) and the responder PAIRED
with coupleId set; create the fresh all-false consent record. -/
def acceptPairRequest (s : AppState) (user? : Option User) (coupleCode : Nat)
    (now : Nat) : Except RespondError (AppState × Couple) :=
  match user? with
  | none => .error .unauthenticated
  | some user =>
    match s.couples.find? (fun c =>
        c.coupleId == coupleCode && c.pairRequest.toUserId == user.id &&
        c.pairRequest.status == ReqStatus.pending) with
    | none => .error .requestNotFound
    | some couple =>
      let couple' :=
        { couple with
            status := CoupleStatus.active,
            pairRequest :=
              { couple.pairRequest with status := ReqStatus.accepted, respondedAt := some now },
            pairingDate := some now }
      let s1 := saveCouple s couple'
      let s2 :=
        match findUserById s1 couple.pairRequest.fromUserId with
        | some partner =>
            saveUser s1
              { partner with relationshipStatus := .paired, coupleId := some couple'.id }
        | none => s1
      let s3 := saveUser s2 { user with relationshipStatus := .paired, coupleId := some couple'.id }
      let s4 := { s3 with consents := s3.consents ++ [freshConsent couple' now] }
      .ok (s4, couple')

/-- rejectPairRequest (chat.controller.ts): same lookup as accept; mark the
embedded request rejected with response date and move the couple straight to
DISSOLVED; neither user document is touched. -/
def rejectPairRequest (s : AppState) (user? : Option User) (coupleCode : Nat)
    (now : Nat) : Except RespondError (AppState × Couple) :=
  match user? with
  | none => .error .unauthenticated
  | some user =>
    match s.couples.find? (fun c =>
        c.coupleId == coupleCode && c.pairRequest.toUserId == user.id &&
        c.pairRequest.status == ReqStatus.pending) with
    | none => .error .requestNotFound
    | some couple =>
      let couple' :=
        { couple with
            status := CoupleStatus.dissolved,
            pairRequest :=
              { couple.pairRequest with status := ReqStatus.rejected, respondedAt := some now } }
      .ok (saveCouple s couple', couple')

/-- JavaScript `s.slice(0, n)` on a string: the first n characters. -/
def jsSlice (s : String) (n : Nat) : String := ⟨s.data.take n⟩

/-- Failure kinds of breakup (chat.controller.ts, lines 907-1023). -/
inductive BreakupError
  | unauthenticated
  | notInRelationship
  | noActiveRelationship
deriving DecidableEq

/-- breakup (chat.controller.ts, lines 907-1023): require the caller's couple
to exist and be ACTIVE; archive that couple's ACTIVE memories; dissolve the
couple with a dissolution date; give the partner (if resolvable) and then the
caller a permanent relationship-history entry whose start date is
relationshipStartDate, else pairingDate, else createdAt, whose duration is
the floor of elapsed days, and whose initiatedBreakup is true only on the
caller's entry; set both users SINGLE with coupleId cleared; and, when a
non-blank anonymous note was supplied, persist an authorless review keyed to
the couple with the text trimmed and cut to 300 characters. -/
def breakup (s : AppState) (user? : Option User) (anonymousReview : Option String)
    (now : Nat) : Except BreakupError AppState :=
  match user? with
  | none => .error .unauthenticated
  | some user =>
    match user.coupleId with
    | none => .error .notInRelationship
    | some cid =>
      match findCoupleById s cid with
      | none => .error .noActiveRelationship
      | some couple =>
        if couple.status ≠ CoupleStatus.active then .error .noActiveRelationship
        else
          let s1 :=
            { s with memories := s.memories.map (fun m =>
                if m.coupleId == couple.id && m.status == MemoryStatus.active
                then { m with status := MemoryStatus.archived } else m) }
          let couple' := { couple with status := .dissolved, dissolutionDate := some now }
          let s2 := saveCouple s1 couple'
          let partnerId := if couple.partner1 == user.id then couple.partner2 else couple.partner1
          let partner? := findUserById s2 partnerId
          let startDate := couple.relationshipStartDate.getD
            (couple.pairingDate.getD couple.createdAt)
          let durationDays : Int := Int.fdiv ((now : Int) - (startDate : Int)) (msPerDay : Int)
          let s3 :=
            match partner? with
            | some partner =>
                saveUser s2
                  { partner with
                      relationshipHistory := partner.relationshipHistory ++
                        [{ partnerName := user.name, partnerUniqueId := user.uniqueId,
                           startDate := startDate, endDate := now,
                           durationDays := durationDays, initiatedBreakup := false }],
                      relationshipStatus := .single, coupleId := none,
                      pastRelationshipExists := true }
            | none => s2
          let userEntry : RelationshipHistoryEntry :=
            { partnerName := match partner? with | some p => p.name | none => "Unknown",
              partnerUniqueId := match partner? with | some p => p.uniqueId | none => "Unknown",
              startDate := startDate, endDate := now,
              durationDays := durationDays, initiatedBreakup := true }
          let s4 := saveUser s3
            { user with
                relationshipHistory := user.relationshipHistory ++ [userEntry],
                relationshipStatus := .single, coupleId := none,
                pastRelationshipExists := true }
          let s5 :=
            match anonymousReview with
            | some txt =>
                if 0 < (jsTrim txt).length
                then { s4 with reviews := s4.reviews ++
                        [{ coupleId := couple.id, reviewText := jsSlice (jsTrim txt) 300 }] }
                else s4
            | none => s4
          .ok s5

/-- The streak-counter recomputation inside uploadStreakPhoto
(streak.controller.ts, lines 76-108), applied to the loaded-or-fresh Streak
document: stamp the submitting partner's last-photo instant; if both
partners' last-photo instants now fall on today's calendar day, increment the
current streak when the stored last streak day was exactly yesterday, reset
it to 1 when it was neither yesterday nor already today, set the last streak
day to today, and raise the longest streak when exceeded. -/
def updateStreakOnUpload (streak : Streak) (isPartner1 : Bool) (now : Nat) : Streak :=
  let today := dayStart now
  let streak1 :=
    if isPartner1 then { streak with partner1LastPhoto := some now }
    else { streak with partner2LastPhoto := some now }
  let partner1Today :=
    match streak1.partner1LastPhoto with
    | some t => dayStart t == today
    | none => false
  let partner2Today :=
    match streak1.partner2LastPhoto with
    | some t => dayStart t == today
    | none => false
  if partner1Today && partner2Today then
    let yesterday := today - msPerDay
    let streak2 :=
      match streak1.lastStreakDate with
      | some d =>
          if dayStart d == yesterday
          then { streak1 with currentStreak := streak1.currentStreak + 1 }
          else if dayStart d != today
          then { streak1 with currentStreak := 1 }
          else streak1
      | none => { streak1 with currentStreak := 1 }
    let streak3 := { streak2 with lastStreakDate := some today }
    if streak3.longestStreak < streak3.currentStreak
    then { streak3 with longestStreak := streak3.currentStreak }
    else streak3
  else streak1

/-- The both-partners-posted-today test inside uploadStreakPhoto
(streak.controller.ts, lines 87-90), evaluated after the submitting partner's
last-photo instant was stamped. -/
def bothPostedToday (streak : Streak) (isPartner1 : Bool) (now : Nat) : Bool :=
  let streak1 :=
    if isPartner1 then { streak with partner1LastPhoto := some now }
    else { streak with partner2LastPhoto := some now }
  (match streak1.partner1LastPhoto with
   | some t => dayStart t == dayStart now
   | none => false)
  && (match streak1.partner2LastPhoto with
      | some t => dayStart t == dayStart now
      | none => false)

/-- The live-photo count uploadStreakPhoto takes before admitting an upload
(`StreakPhoto.countDocuments` over coupleId, uploader, isExpired false and
expiresAt in the future). -/
def countActiveStreakPhotos (s : AppState) (cid uid now : Nat) : Nat :=
  (s.streakPhotos.filter (fun p =>
    p.coupleId == cid && p.uploadedBy == uid && p.isExpired == false &&
    decide (now < p.expiresAt))).length

/-- Failure kinds of uploadStreakPhoto (streak.controller.ts, lines 12-132),
in the order the handler tests them. -/
inductive UploadError
  | unauthenticated
  | notInRelationship
  | noImage
  | coupleNotFound
  | photoLimitReached
deriving DecidableEq

/-- uploadStreakPhoto (streak.controller.ts, lines 12-132): authenticated
caller with a coupleId and an image file; the couple must merely exist (its
status is never read); at most 2 live photos already (3 rejects); create the
photo expiring 24 hours out; then run the streak recomputation on the
loaded-or-fresh streak counter and save everything. -/
def uploadStreakPhoto (s : AppState) (user? : Option User) (file? : Option String)
    (now : Nat) : Except UploadError (AppState × StreakPhoto × Streak) :=
  match user? with
  | none => .error .unauthenticated
  | some user =>
    match user.coupleId with
    | none => .error .notInRelationship
    | some cid =>
      match file? with
      | none => .error .noImage
      | some filename =>
        match findCoupleById s cid with
        | none => .error .coupleNotFound
        | some couple =>
          let activePhotos := countActiveStreakPhotos s couple.id user.id now
          if 3 ≤ activePhotos then .error .photoLimitReached
          else
            let photo : StreakPhoto :=
              { id := s.nextId, coupleId := couple.id, uploadedBy := user.id,
                imagePath := "/uploads/streaks/" ++ filename,
                expiresAt := now + 24 * 60 * 60 * 1000, createdAt := now }
            let s1 := { s with streakPhotos := s.streakPhotos ++ [photo], nextId := s.nextId + 1 }
            let streak0 :=
              match findStreakByCoupleId s1 couple.id with
              | some st => st
              | none => { coupleId := couple.id }
            let isPartner1 := couple.partner1 == user.id
            let streak' := updateStreakOnUpload streak0 isPartner1 now
            let s2 :=
              match findStreakByCoupleId s1 couple.id with
              | some _ =>
                  { s1 with streaks := replaceBy Streak.coupleId s1.streaks streak' }
              | none => { s1 with streaks := s1.streaks ++ [streak'] }
            .ok (s2, photo, streak')

/-- The per-photo visibility filter of the streak listing (getStreakStatus,
streak.controller.ts, lines 171-175): a photo is listed only while its TTL
has not passed and it has not been flagged expired. -/
def photoVisible (p : StreakPhoto) (now : Nat) : Bool :=
  decide (now < p.expiresAt) && !p.isExpired

/-- Failure kinds of markPhotoViewed (streak.controller.ts, lines 234-279),
in the order the handler tests them. -/
inductive ViewError
  | unauthenticated
  | photoNotFound
  | cannotViewOwnPhoto
deriving DecidableEq

/-- markPhotoViewed (streak.controller.ts, lines 234-279): authenticated
caller; photo must exist; the uploader may not view their own photo; on
success the view instant and viewer are stamped and isExpired is set true
immediately, and the photo is saved.  No other precondition is tested: the
photo's expiry state, its TTL and the viewer's couple membership are never
read. -/
def markPhotoViewed (s : AppState) (user? : Option User) (photoId : Nat)
    (now : Nat) : Except ViewError (AppState × StreakPhoto) :=
  match user? with
  | none => .error .unauthenticated
  | some user =>
    match findPhotoById s photoId with
    | none => .error .photoNotFound
    | some photo =>
      if photo.uploadedBy == user.id then .error .cannotViewOwnPhoto
      else
        let photo' :=
          { photo with viewedAt := some now, viewedBy := some user.id, isExpired := true }
        .ok (savePhoto s photo', photo')

/-- States reachable from a fresh user base through the four pairing
operations, each invoked with a caller document that is stored in the state
(req.user is always loaded from the database by the auth middleware). -/
inductive PairReachable : AppState → Prop
  | init (users : List User) (nextId : Nat)
      (hfresh : ∀ u ∈ users, u.relationshipStatus = RelationshipStatus.single ∧
        u.coupleId = none ∧ u.relationshipHistory = [])
      (hids : users.Pairwise (fun a b => a.id ≠ b.id)) :
      PairReachable
        { users := users, couples := [], consents := [], memories := [],
          reviews := [], streaks := [], streakPhotos := [], nextId := nextId }
  | send (s s' : AppState) (u : User) (code : String) (now : Nat) (c : Couple)
      (hs : PairReachable s) (hu : u ∈ s.users)
      (h : sendPairRequest s (some u) code now = .ok (s', c)) : PairReachable s'
  | accept (s s' : AppState) (u : User) (coupleCode now : Nat) (c : Couple)
      (hs : PairReachable s) (hu : u ∈ s.users)
      (h : acceptPairRequest s (some u) coupleCode now = .ok (s', c)) : PairReachable s'
  | reject (s s' : AppState) (u : User) (coupleCode now : Nat) (c : Couple)
      (hs : PairReachable s) (hu : u ∈ s.users)
      (h : rejectPairRequest s (some u) coupleCode now = .ok (s', c)) : PairReachable s'
  | dissolve (s s' : AppState) (u : User) (note : Option String) (now : Nat)
      (hs : PairReachable s) (hu : u ∈ s.users)
      (h : breakup s (some u) note now = .ok s') : PairReachable s'

/-- How many PENDING or ACTIVE couples a user is linked to as partner1 or
partner2. -/
def userCoupleCount (s : AppState) (uid : Nat) : Nat :=
  (s.couples.filter (fun c =>
    (c.partner1 == uid || c.partner2 == uid) &&
    (c.status == CoupleStatus.pending || c.status == CoupleStatus.active))).length

/-- The pairing-exclusivity invariant of the spec: every user is linked to at
most one PENDING or ACTIVE couple. -/
def pairingExclusive (s : AppState) : Bool :=
  s.users.all (fun u => userCoupleCount s u.id ≤ 1)

/-- A user, couple and all-enabled consent record exercising the success
branch of the gate. -/
def exGateUser : User :=
  { id := 1, uniqueId := "AAAA1111", name := "a", relationshipStatus := .paired,
    coupleId := some 10 }

/-- The active couple for the gate example. -/
def exGateCouple : Couple :=
  { id := 10, coupleId := 500, partner1 := 1, partner2 := 2, status := .active,
    pairRequest := { fromUserId := 1, toUserId := 2, status := .accepted, createdAt := 0,
                     respondedAt := some 5 },
    pairingDate := some 5, createdAt := 0 }

/-- A consent record in which both partners enabled photo sharing. -/
def exGateConsent : Consent :=
  { coupleId := 10,
    partner1Consent := { userId := 1, photoSharing := true },
    partner2Consent := { userId := 2, photoSharing := true } }

/-- Concrete state for the gate example. -/
def exGateState : AppState :=
  { users := [exGateUser], couples := [exGateCouple], consents := [exGateConsent],
    nextId := 11 }

/-- A viewer who belongs to no couple at all. -/
def exViewUser : User := { id := 1, uniqueId := "VVVV1111", name := "viewer" }

/-- A live photo belonging to couple 99, uploaded by user 2. -/
def exViewPhoto : StreakPhoto :=
  { id := 50, coupleId := 99, uploadedBy := 2, imagePath := "/uploads/streaks/a.jpg",
    expiresAt := 86400000, createdAt := 0 }

/-- State for the cross-couple view example. -/
def exViewState : AppState :=
  { users := [exViewUser], streakPhotos := [exViewPhoto], nextId := 100 }

/-- A viewer in couple 20. -/
def exC3Viewer : User :=
  { id := 1, uniqueId := "CCCC1111", name := "c", relationshipStatus := .paired,
    coupleId := some 20 }

/-- A photo of couple 20 that has already been viewed and flagged expired. -/
def exC3Photo : StreakPhoto :=
  { id := 50, coupleId := 20, uploadedBy := 2, imagePath := "/uploads/streaks/b.jpg",
    expiresAt := 86400000, viewedAt := some 500, viewedBy := some 1, isExpired := true,
    createdAt := 0 }

/-- State for the repeat-view example. -/
def exC3State : AppState :=
  { users := [exC3Viewer], streakPhotos := [exC3Photo], nextId := 100 }

/-- A user whose coupleId references a dissolved couple. -/
def exC8User : User :=
  { id := 1, uniqueId := "UUUU1111", name := "u", relationshipStatus := .single,
    coupleId := some 10 }

/-- The dissolved couple the uploader still references. -/
def exC8Couple : Couple :=
  { id := 10, coupleId := 10, partner1 := 1, partner2 := 2, status := .dissolved,
    pairRequest := { fromUserId := 1, toUserId := 2, status := .accepted, createdAt := 0,
                     respondedAt := some 1 },
    pairingDate := some 1, dissolutionDate := some 2, createdAt := 0 }

/-- State for the dissolved-couple upload example. -/
def exC8State : AppState :=
  { users := [exC8User], couples := [exC8Couple], nextId := 30 }

/-- The photo the dissolved-couple upload creates. -/
def exC8Photo : StreakPhoto :=
  { id := 30, coupleId := 10, uploadedBy := 1, imagePath := "/uploads/streaks/img.jpg",
    expiresAt := 86400100, createdAt := 100 }

/-- The streak counter the dissolved-couple upload creates. -/
def exC8Streak : Streak := { coupleId := 10, partner1LastPhoto := some 100 }

/-- User A of the exclusivity trace. -/
def exC4A : User := { id := 1, uniqueId := "AAAA1111", name := "a" }

/-- User B of the exclusivity trace. -/
def exC4B : User := { id := 2, uniqueId := "BBBB2222", name := "b" }

/-- User C of the exclusivity trace. -/
def exC4C : User := { id := 3, uniqueId := "CCCC3333", name := "c" }

/-- Fresh three-user state. -/
def exC4s0 : AppState := { users := [exC4A, exC4B, exC4C], nextId := 10 }

/-- The pending couple B -> A created by the first request. -/
def exC4c1 : Couple :=
  { id := 10, coupleId := 10, partner1 := 2, partner2 := 1, status := .pending,
    pairRequest := { fromUserId := 2, toUserId := 1, status := .pending, createdAt := 1000 },
    createdAt := 1000 }

/-- State after B requested A. -/
def exC4s1 : AppState := { users := [exC4A, exC4B, exC4C], couples := [exC4c1], nextId := 11 }

/-- The pending couple A -> C created by the second request. -/
def exC4c2 : Couple :=
  { id := 11, coupleId := 11, partner1 := 1, partner2 := 3, status := .pending,
    pairRequest := { fromUserId := 1, toUserId := 3, status := .pending, createdAt := 2000 },
    createdAt := 2000 }

/-- State after A, the target of B's still-pending request, requested C. -/
def exC4s2 : AppState :=
  { users := [exC4A, exC4B, exC4C], couples := [exC4c1, exC4c2], nextId := 12 }

/-- Responder of the acceptance example. -/
def exC6A : User := { id := 1, uniqueId := "EEEE1111", name := "e" }

/-- Requester of the acceptance example. -/
def exC6B : User := { id := 2, uniqueId := "FFFF2222", name := "f" }

/-- Pending couple awaiting the responder's answer. -/
def exC6Couple : Couple :=
  { id := 10, coupleId := 10, partner1 := 2, partner2 := 1, status := .pending,
    pairRequest := { fromUserId := 2, toUserId := 1, status := .pending, createdAt := 0 },
    createdAt := 0 }

/-- State before acceptance. -/
def exC6State : AppState := { users := [exC6A, exC6B], couples := [exC6Couple], nextId := 11 }

/-- The couple after acceptance. -/
def exC6Couple' : Couple :=
  { exC6Couple with
      status := .active,
      pairRequest := { exC6Couple.pairRequest with status := .accepted, respondedAt := some 50 },
      pairingDate := some 50 }

/-- The state after acceptance. -/
def exC6After : AppState :=
  { users := [{ exC6A with relationshipStatus := .paired, coupleId := some 10 },
              { exC6B with relationshipStatus := .paired, coupleId := some 10 }],
    couples := [exC6Couple'], consents := [freshConsent exC6Couple' 50], nextId := 11 }

/-- Breakup initiator of the dissolution example. -/
def exC5X : User :=
  { id := 1, uniqueId := "XXXX1111", name := "x", relationshipStatus := .paired,
    coupleId := some 10 }

/-- Partner of the dissolution example. -/
def exC5Y : User :=
  { id := 2, uniqueId := "YYYY2222", name := "y", relationshipStatus := .paired,
    coupleId := some 10 }

/-- The active couple being dissolved; paired at instant 5, no explicit
relationship start date. -/
def exC5Couple : Couple :=
  { id := 10, coupleId := 10, partner1 := 1, partner2 := 2, status := .active,
    pairRequest := { fromUserId := 1, toUserId := 2, status := .accepted, createdAt := 0,
                     respondedAt := some 5 },
    pairingDate := some 5, createdAt := 0 }

/-- An active shared memory of the couple. -/
def exC5Memory : Memory := { id := 70, coupleId := 10, uploadedBy := 1, status := .active }

/-- State before the breakup. -/
def exC5State : AppState :=
  { users := [exC5X, exC5Y], couples := [exC5Couple], memories := [exC5Memory], nextId := 90 }

/-- The history entry the initiator receives (two whole days elapsed). -/
def exC5EntryX : RelationshipHistoryEntry :=
  { partnerName := "y", partnerUniqueId := "YYYY2222", startDate := 5, endDate := 172800005,
    durationDays := 2, initiatedBreakup := true }

/-- The history entry the partner receives. -/
def exC5EntryY : RelationshipHistoryEntry :=
  { partnerName := "x", partnerUniqueId := "XXXX1111", startDate := 5, endDate := 172800005,
    durationDays := 2, initiatedBreakup := false }

/-- State after the breakup with note " nice ". -/
def exC5After : AppState :=
  { users := [{ exC5X with
                  relationshipHistory := [exC5EntryX],
                  relationshipStatus := .single,
                  coupleId := none,
                  pastRelationshipExists := true },
              { exC5Y with
                  relationshipHistory := [exC5EntryY],
                  relationshipStatus := .single,
                  coupleId := none,
                  pastRelationshipExists := true }],
    couples := [{ exC5Couple with status := .dissolved, dissolutionDate := some 172800005 }],
    memories := [{ exC5Memory with status := .archived }],
    reviews := [{ coupleId := 10, reviewText := "nice" }],
    nextId := 90 }

/-- A streak counter whose last qualifying day was yesterday; partner1 has
already posted today and partner2 is about to. -/
def exC7Streak : Streak :=
  { coupleId := 20, currentStreak := 3, longestStreak := 3,
    lastStreakDate := some 86400000, partner1LastPhoto := some 172800005,
    partner2LastPhoto := none }

/-!
The theorems below settle the claims against the definitions above.
-/

/-- C1: for every Couple's consent record and every toggle T, isFeatureEnabled
returns true iff both partner1's and partner2's stored flag for T are true;
and after either partner's flag for T is written false through the consent
update path, the very next isFeatureEnabled evaluation returns false -- the
computation reads only the current stored flags, with no caching. -/
theorem consent_conjunctive_and_uncached (c : Consent) (t : ConsentType) (uid now : Nat) :
    (isFeatureEnabled c t = (flagFor c.partner1Consent t && flagFor c.partner2Consent t))
    ∧ isFeatureEnabled
        (applyConsentUpdate c uid (setFalseArgs t).1 (setFalseArgs t).2.1 (setFalseArgs t).2.2 now)
        t = false := by
  constructor
  · cases t <;> rfl
  · cases t <;>
      simp only [applyConsentUpdate, setFalseArgs, isFeatureEnabled] <;>
      by_cases h1 : c.partner1Consent.userId == uid <;>
      simp [h1] <;>
      cases h2 : flagFor c.partner1Consent ConsentType.photoSharing <;>
      simp_all [flagFor, isFeatureEnabled] <;>
      aesop

/-- C2: the AuthorizationGate guard evaluates its checks in order and fails
with the first violated one -- missing identity gives Unauthenticated; an
identity without coupleId gives NoActiveRelationship; a missing or non-ACTIVE
Couple gives RelationshipNotActive; a missing ConsentLedger gives
ConsentNotConfigured; a disabled feature gives ConsentRequired carrying the
feature name; and only when every check passes does the guard expose the
resolved Couple and ConsentLedger. -/
theorem requireConsent_gate_order (t : ConsentType) (s : AppState) :
    (requireConsent t none s = .error .unauthenticated)
    ∧ (∀ u : User, u.coupleId = none →
        requireConsent t (some u) s = .error .noActiveRelationship)
    ∧ (∀ (u : User) (cid : Nat), u.coupleId = some cid →
        findCoupleById s cid = none →
        requireConsent t (some u) s = .error .relationshipNotActive)
    ∧ (∀ (u : User) (cid : Nat) (c : Couple), u.coupleId = some cid →
        findCoupleById s cid = some c → c.status ≠ .active →
        requireConsent t (some u) s = .error .relationshipNotActive)
    ∧ (∀ (u : User) (cid : Nat) (c : Couple), u.coupleId = some cid →
        findCoupleById s cid = some c → c.status = .active →
        findConsentByCoupleId s c.id = none →
        requireConsent t (some u) s = .error .consentNotConfigured)
    ∧ (∀ (u : User) (cid : Nat) (c : Couple) (con : Consent), u.coupleId = some cid →
        findCoupleById s cid = some c → c.status = .active →
        findConsentByCoupleId s c.id = some con → isFeatureEnabled con t = false →
        requireConsent t (some u) s = .error (.consentRequired t))
    ∧ (∀ (u : User) (cid : Nat) (c : Couple) (con : Consent), u.coupleId = some cid →
        findCoupleById s cid = some c → c.status = .active →
        findConsentByCoupleId s c.id = some con → isFeatureEnabled con t = true →
        requireConsent t (some u) s = .ok { couple := c, consent := con }) := by
  refine ⟨rfl, ?_, ?_, ?_, ?_, ?_, ?_⟩
  · intro u hcid
    simp [requireConsent, hcid]
  · intro u cid hcid hfind
    simp [requireConsent, hcid, hfind]
  · intro u cid c hcid hfind hstat
    simp [requireConsent, hcid, hfind, hstat]
  · intro u cid c hcid hfind hstat hcon
    simp [requireConsent, hcid, hfind, hstat, hcon]
  · intro u cid c con hcid hfind hstat hcon hen
    simp [requireConsent, hcid, hfind, hstat, hcon, hen]
  · intro u cid c con hcid hfind hstat hcon hen
    simp [requireConsent, hcid, hfind, hstat, hcon, hen]

/-- Witness for C2: on a concrete state whose couple is active and whose
consent enables photoSharing on both sides, the gate admits the request and
hands back that couple and consent. -/
theorem requireConsent_gate_order_witness :
    requireConsent .photoSharing (some exGateUser) exGateState =
      .ok { couple := exGateCouple, consent := exGateConsent } :=
  (requireConsent_gate_order .photoSharing exGateState).2.2.2.2.2.2
    exGateUser 10 exGateCouple exGateConsent rfl (by decide) rfl (by decide) rfl

/-- Unfolding equation of replaceBy on a cons cell. -/
theorem replaceBy_cons {α : Type} (key : α → Nat) (a : α) (l : List α) (m : α) :
    replaceBy key (a :: l) m = (if key a == key m then m else a) :: replaceBy key l m := rfl

/-- Replacing a document keyed differently leaves any keyed lookup unchanged. -/
theorem find?_replaceBy_of_ne {α : Type} (key : α → Nat) (m : α) (k : Nat) (l : List α)
    (h : key m ≠ k) :
    (replaceBy key l m).find? (fun x => key x == k) = l.find? (fun x => key x == k) := by
  induction l with
  | nil => rfl
  | cons a l ih =>
    rw [replaceBy_cons]
    by_cases ha : key a = key m
    · have h3 : (key a == k) = false := by simp [ha, h]
      have h2 : (key m == k) = false := by simp [h]
      have h1 : (key a == key m) = true := by simp [ha]
      simp only [h1, if_true, List.find?_cons, h2, h3]
      exact ih
    · have h1 : (key a == key m) = false := by simp [ha]
      simp only [h1, Bool.false_eq_true, if_false, List.find?_cons]
      cases h4 : (key a == k)
      · exact ih
      · rfl

/-- Saving a document whose key some stored document carries makes the keyed
lookup return exactly the saved document. -/
theorem find?_replaceBy_self {α : Type} (key : α → Nat) (m : α) (k : Nat) (l : List α)
    (hm : key m = k) (h : (l.find? (fun x => key x == k)).isSome) :
    (replaceBy key l m).find? (fun x => key x == k) = some m := by
  induction l with
  | nil => simp [List.find?] at h
  | cons a l ih =>
    rw [replaceBy_cons]
    by_cases ha : key a = k
    · have h1 : (key a == key m) = true := by simp [ha, hm]
      have h2 : (key m == k) = true := by simp [hm]
      simp only [h1, if_true, List.find?_cons, h2]
    · have h1 : (key a == key m) = false := by simp [ha, hm]
      have h3 : (key a == k) = false := by simp [ha]
      have h' : (l.find? (fun x => key x == k)).isSome := by
        simpa [List.find?_cons, h3] using h
      simp only [h1, Bool.false_eq_true, if_false, List.find?_cons, h3]
      exact ih h'

/-- A lookup that fails stays failed for any more demanding predicate. -/
theorem find?_none_of_imp {α : Type} (p q : α → Bool) (l : List α)
    (himp : ∀ x, q x = true → p x = true) (h : l.find? p = none) : l.find? q = none := by
  rw [List.find?_eq_none] at *
  intro x hx hqx
  exact h x hx (himp x hqx)

/-- A lookup that fails means the matching sub-collection is empty. -/
theorem filter_eq_nil_of_find?_none {α : Type} (p : α → Bool) (l : List α)
    (h : l.find? p = none) : l.filter p = [] := by
  rw [List.filter_eq_nil_iff]
  rw [List.find?_eq_none] at h
  exact h

/-- C10: markPhotoViewed performs no couple-membership or consent check beyond
authentication -- for every authenticated user who is not the uploader of an
existing photo, the view succeeds and flags the photo expired, with no
condition whatsoever relating the viewer's coupleId (possibly absent) to the
photo's coupleId. -/
theorem markPhotoViewed_no_couple_gate (s : AppState) (u : User) (p : StreakPhoto)
    (pid now : Nat) (hfind : findPhotoById s pid = some p) (hown : p.uploadedBy ≠ u.id) :
    markPhotoViewed s (some u) pid now =
      .ok (savePhoto s { p with viewedAt := some now, viewedBy := some u.id, isExpired := true },
           { p with viewedAt := some now, viewedBy := some u.id, isExpired := true }) := by
  simp [markPhotoViewed, hfind, hown]

/-- Witness for C10: a user with no couple at all successfully views and
expires a photo of couple 99. -/
theorem markPhotoViewed_no_couple_gate_witness :
    markPhotoViewed exViewState (some exViewUser) 50 600 =
      .ok (savePhoto exViewState
            { exViewPhoto with viewedAt := some 600, viewedBy := some 1, isExpired := true },
           { exViewPhoto with viewedAt := some 600, viewedBy := some 1, isExpired := true }) :=
  markPhotoViewed_no_couple_gate exViewState exViewUser exViewPhoto 50 600 rfl (by decide)

/-- C3 counterexample: the claim says a View of an item that is already
expired fails with ItemNotFound/NotFound, so a second View of a viewed item
must fail; in the code markPhotoViewed never reads isExpired or expiresAt,
and the repeat View of this already-viewed, already-expired photo succeeds,
re-stamping its view fields. -/
theorem markPhotoViewed_expired_item_succeeds :
    exC3Photo.isExpired = true ∧
    markPhotoViewed exC3State (some exC3Viewer) 50 600 =
      .ok (savePhoto exC3State { exC3Photo with viewedAt := some 600 },
           { exC3Photo with viewedAt := some 600 }) := by
  constructor
  · rfl
  · decide

/-- C3 amended: View(viewer, itemId) checks, in order, only that the item
exists (failing NotFound) and that the viewer is not the uploader (failing
CannotViewOwnItem); no expiry or TTL condition is checked, so already-expired
items and repeat views succeed as well; on success it stamps viewedAt and
viewedBy and immediately sets isExpired = true, which excludes the item from
every subsequent listing (the listing filter drops flagged items), although a
direct repeat View of the same item still succeeds rather than failing with
NotFound. -/
theorem markPhotoViewed_spec (s : AppState) (u : User) (pid now : Nat) :
    (findPhotoById s pid = none →
      markPhotoViewed s (some u) pid now = .error .photoNotFound)
    ∧ (∀ p, findPhotoById s pid = some p → p.uploadedBy = u.id →
        markPhotoViewed s (some u) pid now = .error .cannotViewOwnPhoto)
    ∧ (∀ p, findPhotoById s pid = some p → p.uploadedBy ≠ u.id →
        markPhotoViewed s (some u) pid now =
          .ok (savePhoto s { p with viewedAt := some now, viewedBy := some u.id, isExpired := true },
               { p with viewedAt := some now, viewedBy := some u.id, isExpired := true })
        ∧ (∀ t, photoVisible
            { p with viewedAt := some now, viewedBy := some u.id, isExpired := true } t = false)
        ∧ (∀ now2, markPhotoViewed
            (savePhoto s { p with viewedAt := some now, viewedBy := some u.id, isExpired := true })
            (some u) pid now2 =
          .ok (savePhoto
                (savePhoto s { p with viewedAt := some now, viewedBy := some u.id, isExpired := true })
                { p with viewedAt := some now2, viewedBy := some u.id, isExpired := true },
               { p with viewedAt := some now2, viewedBy := some u.id, isExpired := true }))) := by
  refine ⟨?_, ?_, ?_⟩
  · intro hnone
    simp [markPhotoViewed, hnone]
  · intro p hfind hown
    simp [markPhotoViewed, hfind, hown]
  · intro p hfind hown
    have hfind' : s.streakPhotos.find? (fun x => x.id == pid) = some p := hfind
    have hpid' : p.id = pid := by
      have h5 := List.find?_some hfind'
      simpa using h5
    refine ⟨by simp [markPhotoViewed, hfind, hown], by simp [photoVisible], ?_⟩
    intro now2
    have hfind2 : findPhotoById
        (savePhoto s { p with viewedAt := some now, viewedBy := some u.id, isExpired := true }) pid =
        some { p with viewedAt := some now, viewedBy := some u.id, isExpired := true } := by
      unfold findPhotoById savePhoto
      exact find?_replaceBy_self StreakPhoto.id
        { p with viewedAt := some now, viewedBy := some u.id, isExpired := true } pid
        s.streakPhotos hpid' (by rw [show s.streakPhotos.find? (fun x => x.id == pid) =
          findPhotoById s pid from rfl, hfind]; rfl)
    simp [markPhotoViewed, hfind2, hown]

/-- Witness for C3 amended: on the concrete repeat-view state, the success
branch yields exactly the re-stamped photo, invisible to listings. -/
theorem markPhotoViewed_spec_witness :
    markPhotoViewed exC3State (some exC3Viewer) 50 700 =
      .ok (savePhoto exC3State { exC3Photo with viewedAt := some 700 },
           { exC3Photo with viewedAt := some 700 }) :=
  (((markPhotoViewed_spec exC3State exC3Viewer 50 700).2.2 exC3Photo rfl (by decide)).1)

/-- C8 counterexample: the claim says Submit requires the uploader to belong
to an ACTIVE Couple; the code only requires the referenced couple to exist
and never reads its status, so this upload into a DISSOLVED couple succeeds. -/
theorem uploadStreakPhoto_ignores_couple_status :
    exC8Couple.status = CoupleStatus.dissolved ∧
    uploadStreakPhoto exC8State (some exC8User) (some "img.jpg") 100 =
      .ok ({ exC8State with streaks := [exC8Streak], streakPhotos := [exC8Photo], nextId := 31 },
           exC8Photo, exC8Streak) := by
  constructor
  · rfl
  · decide

/-- C8 amended: Submit requires the uploader's coupleId to reference an
existing Couple -- the couple's status is never checked, so PENDING and
DISSOLVED couples pass -- and fewer than 3 live (non-expired, in-TTL) items
by this uploader for that couple, failing LimitExceeded at 3; on success it
creates an item with expiresAt = now + 24h and isExpired = false, so after
any successful upload the uploader has at most 3 live items for that couple. -/
theorem uploadStreakPhoto_cap (s : AppState) (u : User) (f : String) (now cid : Nat)
    (couple : Couple) (hcid : u.coupleId = some cid) (hc : findCoupleById s cid = some couple) :
    (3 ≤ countActiveStreakPhotos s couple.id u.id now →
      uploadStreakPhoto s (some u) (some f) now = .error .photoLimitReached)
    ∧ (∀ s' photo streak',
        uploadStreakPhoto s (some u) (some f) now = .ok (s', photo, streak') →
        photo.expiresAt = now + 24 * 60 * 60 * 1000
        ∧ photo.isExpired = false
        ∧ photo.uploadedBy = u.id
        ∧ photo.coupleId = couple.id
        ∧ countActiveStreakPhotos s' couple.id u.id now =
            countActiveStreakPhotos s couple.id u.id now + 1
        ∧ countActiveStreakPhotos s' couple.id u.id now ≤ 3) := by
  have hlt2 : now < now + 24 * 60 * 60 * 1000 := by omega
  constructor
  · intro hle
    simp [uploadStreakPhoto, hcid, hc, hle]
  · intro s' photo streak' h
    simp only [uploadStreakPhoto, hcid, hc] at h
    by_cases hle : 3 ≤ countActiveStreakPhotos s couple.id u.id now
    · simp [hle] at h
    · rw [if_neg hle] at h
      split at h <;>
      · rw [Except.ok.injEq, Prod.mk.injEq, Prod.mk.injEq] at h
        obtain ⟨hs2, hph, hstk⟩ := h
        subst hs2
        subst hph
        refine ⟨rfl, rfl, rfl, rfl, ?_, ?_⟩ <;>
        · simp only [countActiveStreakPhotos, List.filter_append, List.length_append] at hle ⊢
          simp [hlt2] at hle ⊢ <;> omega

/-- Witness for C8 amended: the dissolved-couple upload run satisfies every
success conclusion, ending with exactly one live photo. -/
theorem uploadStreakPhoto_cap_witness :
    exC8Photo.expiresAt = 100 + 24 * 60 * 60 * 1000
    ∧ exC8Photo.isExpired = false
    ∧ exC8Photo.uploadedBy = exC8User.id
    ∧ exC8Photo.coupleId = exC8Couple.id
    ∧ countActiveStreakPhotos
        { exC8State with streaks := [exC8Streak], streakPhotos := [exC8Photo], nextId := 31 }
        exC8Couple.id exC8User.id 100 =
        countActiveStreakPhotos exC8State exC8Couple.id exC8User.id 100 + 1
    ∧ countActiveStreakPhotos
        { exC8State with streaks := [exC8Streak], streakPhotos := [exC8Photo], nextId := 31 }
        exC8Couple.id exC8User.id 100 ≤ 3 :=
  (uploadStreakPhoto_cap exC8State exC8User "img.jpg" 100 10 exC8Couple rfl rfl).2
    _ exC8Photo exC8Streak (by decide)

/-- C4 counterexample: starting from a fresh user base, B sends a pair
request to A, then A -- who is the target of that still-pending request, and
therefore still `single` with no outgoing pending request of their own --
sends a pair request to C; both sendPairRequest calls succeed, so the
reachable state exC4s2 links user A to two PENDING couples, violating the
claimed at-most-one invariant. -/
theorem pairing_exclusivity_fails :
    PairReachable exC4s2 ∧ pairingExclusive exC4s2 = false := by
  constructor
  · exact PairReachable.send exC4s1 exC4s2 exC4A "CCCC3333" 2000 exC4c2
      (PairReachable.send exC4s0 exC4s1 exC4B "AAAA1111" 1000 exC4c1
        (PairReachable.init [exC4A, exC4B, exC4C] 10 (by decide) (by decide))
        (by decide) (by decide))
      (by decide) (by decide)
  · decide

/-- C4 amended: sendPairRequest enforces exclusivity only in these forms --
it refuses PAIRED callers (so the caller is single), and after a success the
initiator has exactly one outgoing pending request couple and exactly one
pending couple links this pair of users; the global at-most-one
PENDING/ACTIVE-couple-per-user property does not hold, because the target of
a pending request stays single and may initiate a further request. -/
theorem sendPairRequest_outgoing_exclusivity (s s' : AppState) (u : User) (code : String)
    (now : Nat) (c : Couple)
    (h : sendPairRequest s (some u) code now = .ok (s', c)) :
    u.relationshipStatus = .single
    ∧ c.pairRequest.fromUserId = u.id
    ∧ c.pairRequest.status = .pending
    ∧ c.status = .pending
    ∧ (s'.couples.filter (fun x =>
        x.pairRequest.fromUserId == u.id &&
        x.pairRequest.status == ReqStatus.pending)).length = 1
    ∧ (s'.couples.filter (fun x =>
        ((x.partner1 == c.partner1 && x.partner2 == c.partner2) ||
         (x.partner1 == c.partner2 && x.partner2 == c.partner1)) &&
        x.pairRequest.status == ReqStatus.pending)).length = 1 := by
  simp only [sendPairRequest] at h
  split at h
  · exact absurd h (by simp)
  rename_i hpaired
  split at h
  · exact absurd h (by simp)
  rename_i hout
  split at h
  · exact absurd h (by simp)
  rename_i partner hpartner
  split at h
  · exact absurd h (by simp)
  rename_i hself
  split at h
  · exact absurd h (by simp)
  rename_i hppaired
  split at h
  · exact absurd h (by simp)
  rename_i hdup
  rw [Except.ok.injEq, Prod.mk.injEq] at h
  obtain ⟨hs, hc⟩ := h
  subst hs
  subst hc
  have hsingle : u.relationshipStatus = .single := by
    cases hst : u.relationshipStatus
    · rfl
    · rw [hst] at hpaired
      simp at hpaired
  have houtnone : s.couples.find? (fun x =>
      x.pairRequest.fromUserId == u.id && x.pairRequest.status == ReqStatus.pending) = none :=
    Option.not_isSome_iff_eq_none.mp hout
  have hdupnone : s.couples.find? (fun x =>
      ((x.partner1 == u.id && x.partner2 == partner.id) ||
       (x.partner1 == partner.id && x.partner2 == u.id)) &&
      x.pairRequest.status == ReqStatus.pending) = none :=
    Option.not_isSome_iff_eq_none.mp hdup
  refine ⟨hsingle, rfl, rfl, rfl, ?_, ?_⟩
  · rw [List.filter_append, List.length_append,
      filter_eq_nil_of_find?_none _ _ houtnone]
    simp
  · rw [List.filter_append, List.length_append,
      filter_eq_nil_of_find?_none _ _ hdupnone]
    simp

/-- Witness for C4 amended: the first trace step (B requests A) satisfies all
the conclusions. -/
theorem sendPairRequest_outgoing_exclusivity_witness :
    exC4B.relationshipStatus = .single
    ∧ exC4c1.pairRequest.fromUserId = exC4B.id
    ∧ exC4c1.pairRequest.status = .pending
    ∧ exC4c1.status = .pending
    ∧ (exC4s1.couples.filter (fun x =>
        x.pairRequest.fromUserId == exC4B.id &&
        x.pairRequest.status == ReqStatus.pending)).length = 1
    ∧ (exC4s1.couples.filter (fun x =>
        ((x.partner1 == exC4c1.partner1 && x.partner2 == exC4c1.partner2) ||
         (x.partner1 == exC4c1.partner2 && x.partner2 == exC4c1.partner1)) &&
        x.pairRequest.status == ReqStatus.pending)).length = 1 :=
  sendPairRequest_outgoing_exclusivity exC4s0 exC4s1 exC4B "AAAA1111" 1000 exC4c1 (by decide)

/-- Saving a couple does not move the user collection. -/
theorem findUserById_saveCouple (s : AppState) (c : Couple) :
    findUserById (saveCouple s c) = findUserById s := rfl

/-- Saving one user leaves lookups of other ids unchanged. -/
theorem findUserById_saveUser_of_ne (s : AppState) (m : User) (k : Nat) (h : m.id ≠ k) :
    findUserById (saveUser s m) k = findUserById s k :=
  find?_replaceBy_of_ne User.id m k s.users h

/-- Saving a stored user makes its lookup return the saved document. -/
theorem findUserById_saveUser_self (s : AppState) (m : User) (k : Nat) (hm : m.id = k)
    (h : (findUserById s k).isSome) : findUserById (saveUser s m) k = some m :=
  find?_replaceBy_self User.id m k s.users hm h

/-- C6: AcceptPairing by a responder fails with RequestNotFound when no
pending-request couple targets the responder; on success the couple becomes
ACTIVE with the pairing date stamped and the request accepted, both users
become paired with coupleId set, and a fresh ConsentLedger is appended whose
three flags are false for both partners, so no feature starts enabled. -/
theorem acceptPairRequest_spec (s : AppState) (u : User) (code now : Nat) :
    (s.couples.find? (fun c => c.pairRequest.toUserId == u.id &&
        c.pairRequest.status == ReqStatus.pending) = none →
      acceptPairRequest s (some u) code now = .error .requestNotFound)
    ∧ (∀ (couple : Couple) (partner : User) (s' : AppState) (couple' : Couple),
        s.couples.find? (fun c => c.coupleId == code && c.pairRequest.toUserId == u.id &&
          c.pairRequest.status == ReqStatus.pending) = some couple →
        findCoupleById s couple.id = some couple →
        findUserById s u.id = some u →
        findUserById s couple.pairRequest.fromUserId = some partner →
        partner.id ≠ u.id →
        acceptPairRequest s (some u) code now = .ok (s', couple') →
        couple'.status = .active
        ∧ couple'.pairingDate = some now
        ∧ couple'.pairRequest.status = .accepted
        ∧ findCoupleById s' couple.id = some couple'
        ∧ findUserById s' u.id =
            some { u with relationshipStatus := .paired, coupleId := some couple.id }
        ∧ findUserById s' partner.id =
            some { partner with relationshipStatus := .paired, coupleId := some couple.id }
        ∧ s'.consents = s.consents ++ [freshConsent couple' now]
        ∧ (∀ t, flagFor (freshConsent couple' now).partner1Consent t = false
              ∧ flagFor (freshConsent couple' now).partner2Consent t = false)
        ∧ (∀ t, isFeatureEnabled (freshConsent couple' now) t = false)
        ∧ (freshConsent couple' now).partner1Consent.userId = couple.partner1
        ∧ (freshConsent couple' now).partner2Consent.userId = couple.partner2) := by
  constructor
  · intro hnone
    have hfull : s.couples.find? (fun c =>
        c.coupleId == code && c.pairRequest.toUserId == u.id &&
        c.pairRequest.status == ReqStatus.pending) = none := by
      refine find?_none_of_imp _ _ _ ?_ hnone
      intro x hx
      rw [Bool.and_eq_true, Bool.and_eq_true] at hx
      rw [Bool.and_eq_true]
      exact ⟨hx.1.2, hx.2⟩
    simp [acceptPairRequest, hfull]
  · intro couple partner s' couple' hfind hcid hu hpartner hne hacc
    have hpid : partner.id = couple.pairRequest.fromUserId := by
      have h5 := List.find?_some
        (show s.users.find? (fun x => x.id == couple.pairRequest.fromUserId) = some partner
         from hpartner)
      simpa using h5
    simp only [acceptPairRequest, hfind, findUserById_saveCouple, hpartner] at hacc
    rw [Except.ok.injEq, Prod.mk.injEq] at hacc
    obtain ⟨hs4, hcpl⟩ := hacc
    subst hs4
    subst hcpl
    have hcidsome : (s.couples.find? (fun x => x.id == couple.id)).isSome := by
      rw [show s.couples.find? (fun x => x.id == couple.id) = some couple from hcid]
      rfl
    have husome : (s.users.find? (fun x => x.id == u.id)).isSome := by
      rw [show s.users.find? (fun x => x.id == u.id) = some u from hu]
      rfl
    have hpsome : (s.users.find? (fun x => x.id == partner.id)).isSome := by
      rw [hpid,
        show s.users.find? (fun x => x.id == couple.pairRequest.fromUserId) = some partner
          from hpartner]
      rfl
    refine ⟨rfl, rfl, rfl, ?_, ?_, ?_, rfl, fun t => by cases t <;> exact ⟨rfl, rfl⟩,
      fun t => by cases t <;> rfl, rfl, rfl⟩
    · exact find?_replaceBy_self Couple.id _ couple.id s.couples rfl hcidsome
    · refine findUserById_saveUser_self _ _ _ rfl ?_
      rw [findUserById_saveUser_of_ne _ _ _ (by simpa using hne)]
      exact husome
    · set cl2 : Couple :=
        { couple with
            status := CoupleStatus.active,
            pairRequest :=
              { couple.pairRequest with
                  status := ReqStatus.accepted,
                  respondedAt := some now },
            pairingDate := some now } with hcl2
      set pp : User :=
        { partner with
            relationshipStatus := RelationshipStatus.paired,
            coupleId := some couple.id } with hpp
      set uu : User :=
        { u with
            relationshipStatus := RelationshipStatus.paired,
            coupleId := some couple.id } with huu
      show findUserById (saveUser (saveUser (saveCouple s cl2) pp) uu) partner.id = some pp
      rw [findUserById_saveUser_of_ne _ uu _ (fun hh => hne hh.symm)]
      refine findUserById_saveUser_self _ _ _ rfl ?_
      rw [findUserById_saveCouple]
      exact hpsome

/-- Witness for C6: the concrete acceptance run pairs both users, activates
the couple and leaves photo sharing disabled in the fresh ledger. -/
theorem acceptPairRequest_spec_witness :
    findCoupleById exC6After exC6Couple.id = some exC6Couple'
    ∧ findUserById exC6After 1 =
        some { exC6A with relationshipStatus := .paired, coupleId := some 10 }
    ∧ findUserById exC6After 2 =
        some { exC6B with relationshipStatus := .paired, coupleId := some 10 }
    ∧ isFeatureEnabled (freshConsent exC6Couple' 50) .photoSharing = false := by
  have H := (acceptPairRequest_spec exC6State exC6A 10 50).2 exC6Couple exC6B
    exC6After exC6Couple' (by decide) (by decide) (by decide) (by decide) (by decide) (by decide)
  exact ⟨H.2.2.2.1, H.2.2.2.2.1, H.2.2.2.2.2.1,
    H.2.2.2.2.2.2.2.2.1 ConsentType.photoSharing⟩

/-- Overwriting the memory collection does not move the user collection. -/
theorem findUserById_setMemories (s : AppState) (M : List Memory) :
    findUserById { s with memories := M } = findUserById s := rfl

/-- C5: after a successful breakup by a user in an ACTIVE couple, the couple
is DISSOLVED with the dissolution date stamped; both partners end single with
no coupleId; each gains a permanent relationship-history entry whose
initiatedBreakup field is true exactly for the caller; the couple's
previously active memories move to archived status in place (the collection
is mapped, never deleted); and a non-blank anonymous note persists a review
record keyed to the couple -- a record whose type stores no author reference
at all -- with the text capped at 300 characters. -/
theorem breakup_cascade (s s' : AppState) (u partner : User) (note : Option String)
    (now cid : Nat) (couple : Couple)
    (hcid : u.coupleId = some cid)
    (hc : findCoupleById s cid = some couple)
    (hact : couple.status = .active)
    (hu : findUserById s u.id = some u)
    (hpartner : findUserById s
      (if couple.partner1 == u.id then couple.partner2 else couple.partner1) = some partner)
    (hne : partner.id ≠ u.id)
    (h : breakup s (some u) note now = .ok s') :
    findCoupleById s' cid =
      some { couple with status := .dissolved, dissolutionDate := some now }
    ∧ (∃ e : RelationshipHistoryEntry,
        findUserById s' u.id = some
          { u with relationshipHistory := u.relationshipHistory ++ [e],
                   relationshipStatus := .single, coupleId := none,
                   pastRelationshipExists := true }
        ∧ e.initiatedBreakup = true ∧ e.endDate = now)
    ∧ (∃ e : RelationshipHistoryEntry,
        findUserById s' partner.id = some
          { partner with relationshipHistory := partner.relationshipHistory ++ [e],
                         relationshipStatus := .single, coupleId := none,
                         pastRelationshipExists := true }
        ∧ e.initiatedBreakup = false ∧ e.endDate = now)
    ∧ s'.memories = s.memories.map (fun m =>
        if m.coupleId == couple.id && m.status == MemoryStatus.active
        then { m with status := MemoryStatus.archived } else m)
    ∧ (∀ txt, note = some txt → 0 < (jsTrim txt).length →
        s'.reviews = s.reviews ++
          [{ coupleId := couple.id, reviewText := jsSlice (jsTrim txt) 300 }]
        ∧ (jsSlice (jsTrim txt) 300).length ≤ 300) := by
  have hcplid : couple.id = cid := by
    have h5 := List.find?_some
      (show s.couples.find? (fun x => x.id == cid) = some couple from hc)
    simpa using h5
  have hcsome : (s.couples.find? (fun x => x.id == cid)).isSome := by
    rw [show s.couples.find? (fun x => x.id == cid) = some couple from hc]
    rfl
  have husome : (s.users.find? (fun x => x.id == u.id)).isSome := by
    rw [show s.users.find? (fun x => x.id == u.id) = some u from hu]
    rfl
  have hpid : partner.id =
      (if couple.partner1 == u.id then couple.partner2 else couple.partner1) := by
    have h5 := List.find?_some (show s.users.find? (fun x => x.id ==
      (if couple.partner1 == u.id then couple.partner2 else couple.partner1)) = some partner
      from hpartner)
    simpa using h5
  have hpsome : (s.users.find? (fun x => x.id == partner.id)).isSome := by
    rw [hpid, show s.users.find? (fun x => x.id ==
      (if couple.partner1 == u.id then couple.partner2 else couple.partner1)) = some partner
      from hpartner]
    rfl
  simp only [breakup, hcid, hc] at h
  rw [if_neg (by simp [hact])] at h
  simp only [findUserById_saveCouple, findUserById_setMemories, hpartner] at h
  rw [Except.ok.injEq] at h
  have hcomp : s'.users = replaceBy User.id (replaceBy User.id s.users
        { partner with
            relationshipHistory := partner.relationshipHistory ++
              [{ partnerName := u.name, partnerUniqueId := u.uniqueId,
                 startDate := couple.relationshipStartDate.getD
                   (couple.pairingDate.getD couple.createdAt),
                 endDate := now,
                 durationDays := Int.fdiv ((now : Int) -
                   ((couple.relationshipStartDate.getD
                     (couple.pairingDate.getD couple.createdAt)) : Int)) (msPerDay : Int),
                 initiatedBreakup := false }],
            relationshipStatus := .single, coupleId := none,
            pastRelationshipExists := true })
        { u with
            relationshipHistory := u.relationshipHistory ++
              [{ partnerName := partner.name, partnerUniqueId := partner.uniqueId,
                 startDate := couple.relationshipStartDate.getD
                   (couple.pairingDate.getD couple.createdAt),
                 endDate := now,
                 durationDays := Int.fdiv ((now : Int) -
                   ((couple.relationshipStartDate.getD
                     (couple.pairingDate.getD couple.createdAt)) : Int)) (msPerDay : Int),
                 initiatedBreakup := true }],
            relationshipStatus := .single, coupleId := none,
            pastRelationshipExists := true }
      ∧ s'.couples = replaceBy Couple.id s.couples
        { couple with status := .dissolved, dissolutionDate := some now }
      ∧ s'.memories = s.memories.map (fun m =>
          if m.coupleId == couple.id && m.status == MemoryStatus.active
          then { m with status := MemoryStatus.archived } else m)
      ∧ (∀ txt, note = some txt → 0 < (jsTrim txt).length →
          s'.reviews = s.reviews ++
            [{ coupleId := couple.id, reviewText := jsSlice (jsTrim txt) 300 }]) := by
    rcases note with _ | txt
    · rw [← h]
      exact ⟨rfl, rfl, rfl, fun _ hx => by cases hx⟩
    · dsimp only at h
      by_cases htrim : 0 < (jsTrim txt).length
      · rw [if_pos htrim] at h
        rw [← h]
        exact ⟨rfl, rfl, rfl, fun txt' hx _ => by cases hx; rfl⟩
      · rw [if_neg htrim] at h
        rw [← h]
        refine ⟨rfl, rfl, rfl, fun txt' hx htr => ?_⟩
        cases hx
        exact absurd htr htrim
  refine ⟨?_, ?_, ?_, hcomp.2.2.1, ?_⟩
  · show s'.couples.find? (fun x => x.id == cid) = _
    rw [hcomp.2.1]
    exact find?_replaceBy_self Couple.id _ cid s.couples hcplid hcsome
  · refine ⟨{ partnerName := partner.name,
              partnerUniqueId := partner.uniqueId,
              startDate := couple.relationshipStartDate.getD
                (couple.pairingDate.getD couple.createdAt),
              endDate := now,
              durationDays := Int.fdiv ((now : Int) -
                ((couple.relationshipStartDate.getD
                  (couple.pairingDate.getD couple.createdAt)) : Int)) (msPerDay : Int),
              initiatedBreakup := true }, ?_, rfl, rfl⟩
    show s'.users.find? (fun x => x.id == u.id) = _
    rw [hcomp.1]
    refine find?_replaceBy_self User.id _ u.id _ rfl ?_
    rw [find?_replaceBy_of_ne User.id _ u.id s.users (by intro hh; exact hne hh)]
    exact husome
  · refine ⟨{ partnerName := u.name,
              partnerUniqueId := u.uniqueId,
              startDate := couple.relationshipStartDate.getD
                (couple.pairingDate.getD couple.createdAt),
              endDate := now,
              durationDays := Int.fdiv ((now : Int) -
                ((couple.relationshipStartDate.getD
                  (couple.pairingDate.getD couple.createdAt)) : Int)) (msPerDay : Int),
              initiatedBreakup := false }, ?_, rfl, rfl⟩
    show s'.users.find? (fun x => x.id == partner.id) = _
    rw [hcomp.1]
    rw [find?_replaceBy_of_ne User.id _ partner.id _ (by intro hh; exact hne hh.symm)]
    exact find?_replaceBy_self User.id _ partner.id s.users rfl hpsome
  · intro txt hnote htrim
    refine ⟨hcomp.2.2.2 txt hnote htrim, ?_⟩
    show ((jsTrim txt).data.take 300).length ≤ 300
    rw [List.length_take]
    exact min_le_left _ _

/-- C9: the duration recorded in each partner's history entry at dissolution
is the number of whole elapsed days, rounded down, between the resolved start
date and the dissolution instant, where the resolved start date is the
explicit relationshipStartDate if present and otherwise the pairing date
(stamped on every couple that ever became ACTIVE). -/
theorem breakup_duration_days (s s' : AppState) (u partner : User) (note : Option String)
    (now cid pd : Nat) (couple : Couple)
    (hcid : u.coupleId = some cid)
    (hc : findCoupleById s cid = some couple)
    (hact : couple.status = .active)
    (hu : findUserById s u.id = some u)
    (hpartner : findUserById s
      (if couple.partner1 == u.id then couple.partner2 else couple.partner1) = some partner)
    (hne : partner.id ≠ u.id)
    (hpd : couple.pairingDate = some pd)
    (hle : couple.relationshipStartDate.getD pd ≤ now)
    (h : breakup s (some u) note now = .ok s') :
    ∃ e ep : RelationshipHistoryEntry,
      findUserById s' u.id = some
        { u with relationshipHistory := u.relationshipHistory ++ [e],
                 relationshipStatus := .single, coupleId := none,
                 pastRelationshipExists := true }
      ∧ findUserById s' partner.id = some
        { partner with relationshipHistory := partner.relationshipHistory ++ [ep],
                       relationshipStatus := .single, coupleId := none,
                       pastRelationshipExists := true }
      ∧ e.startDate = couple.relationshipStartDate.getD pd
      ∧ e.durationDays = (((now - couple.relationshipStartDate.getD pd) / msPerDay : Nat) : Int)
      ∧ ep.startDate = e.startDate
      ∧ ep.durationDays = e.durationDays := by
  have husome : (s.users.find? (fun x => x.id == u.id)).isSome := by
    rw [show s.users.find? (fun x => x.id == u.id) = some u from hu]
    rfl
  have hpid : partner.id =
      (if couple.partner1 == u.id then couple.partner2 else couple.partner1) := by
    have h5 := List.find?_some (show s.users.find? (fun x => x.id ==
      (if couple.partner1 == u.id then couple.partner2 else couple.partner1)) = some partner
      from hpartner)
    simpa using h5
  have hpsome : (s.users.find? (fun x => x.id == partner.id)).isSome := by
    rw [hpid, show s.users.find? (fun x => x.id ==
      (if couple.partner1 == u.id then couple.partner2 else couple.partner1)) = some partner
      from hpartner]
    rfl
  simp only [breakup, hcid, hc] at h
  rw [if_neg (by simp [hact])] at h
  simp only [findUserById_saveCouple, findUserById_setMemories, hpartner] at h
  rw [Except.ok.injEq] at h
  have hcomp : s'.users = replaceBy User.id (replaceBy User.id s.users
      { partner with
          relationshipHistory := partner.relationshipHistory ++
            [{ partnerName := u.name, partnerUniqueId := u.uniqueId,
               startDate := couple.relationshipStartDate.getD
                 (couple.pairingDate.getD couple.createdAt),
               endDate := now,
               durationDays := Int.fdiv ((now : Int) -
                 ((couple.relationshipStartDate.getD
                   (couple.pairingDate.getD couple.createdAt)) : Int)) (msPerDay : Int),
               initiatedBreakup := false }],
          relationshipStatus := .single, coupleId := none,
          pastRelationshipExists := true })
      { u with
          relationshipHistory := u.relationshipHistory ++
            [{ partnerName := partner.name, partnerUniqueId := partner.uniqueId,
               startDate := couple.relationshipStartDate.getD
                 (couple.pairingDate.getD couple.createdAt),
               endDate := now,
               durationDays := Int.fdiv ((now : Int) -
                 ((couple.relationshipStartDate.getD
                   (couple.pairingDate.getD couple.createdAt)) : Int)) (msPerDay : Int),
               initiatedBreakup := true }],
          relationshipStatus := .single, coupleId := none,
          pastRelationshipExists := true } := by
    rcases note with _ | txt
    · rw [← h]
      rfl
    · dsimp only at h
      by_cases htrim : 0 < (jsTrim txt).length
      · rw [if_pos htrim] at h
        rw [← h]
        rfl
      · rw [if_neg htrim] at h
        rw [← h]
        rfl
  have hcast : (now : Int) - ((couple.relationshipStartDate.getD pd : Nat) : Int) =
      ((now - couple.relationshipStartDate.getD pd : Nat) : Int) := by
    omega
  refine ⟨{ partnerName := partner.name,
            partnerUniqueId := partner.uniqueId,
            startDate := couple.relationshipStartDate.getD
              (couple.pairingDate.getD couple.createdAt),
            endDate := now,
            durationDays := Int.fdiv ((now : Int) -
              ((couple.relationshipStartDate.getD
                (couple.pairingDate.getD couple.createdAt)) : Int)) (msPerDay : Int),
            initiatedBreakup := true },
          { partnerName := u.name,
            partnerUniqueId := u.uniqueId,
            startDate := couple.relationshipStartDate.getD
              (couple.pairingDate.getD couple.createdAt),
            endDate := now,
            durationDays := Int.fdiv ((now : Int) -
              ((couple.relationshipStartDate.getD
                (couple.pairingDate.getD couple.createdAt)) : Int)) (msPerDay : Int),
            initiatedBreakup := false },
          ?_, ?_, ?_, ?_, ?_, ?_⟩
  · show s'.users.find? (fun x => x.id == u.id) = _
    rw [hcomp]
    refine find?_replaceBy_self User.id _ u.id _ rfl ?_
    rw [find?_replaceBy_of_ne User.id _ u.id s.users (by intro hh; exact hne hh)]
    exact husome
  · show s'.users.find? (fun x => x.id == partner.id) = _
    rw [hcomp]
    rw [find?_replaceBy_of_ne User.id _ partner.id _ (by intro hh; exact hne hh.symm)]
    exact find?_replaceBy_self User.id _ partner.id s.users rfl hpsome
  · simp [hpd]
  · show Int.fdiv ((now : Int) -
        ((couple.relationshipStartDate.getD (couple.pairingDate.getD couple.createdAt)) : Int))
        (msPerDay : Int) =
      (((now - couple.relationshipStartDate.getD pd) / msPerDay : Nat) : Int)
    rw [hpd]
    simp only [Option.getD_some]
    rw [hcast]
    exact (Int.ofNat_fdiv _ _).symm
  · simp [hpd]
  · simp [hpd]

/-- Witness for C5: the concrete dissolution run satisfies every conclusion,
with the anonymous note persisted trimmed and capped. -/
theorem breakup_cascade_witness :
    findCoupleById exC5After 10 =
      some { exC5Couple with status := .dissolved, dissolutionDate := some 172800005 }
    ∧ (∃ e : RelationshipHistoryEntry,
        findUserById exC5After exC5X.id = some
          { exC5X with relationshipHistory := exC5X.relationshipHistory ++ [e],
                       relationshipStatus := .single, coupleId := none,
                       pastRelationshipExists := true }
        ∧ e.initiatedBreakup = true ∧ e.endDate = 172800005)
    ∧ (∃ e : RelationshipHistoryEntry,
        findUserById exC5After exC5Y.id = some
          { exC5Y with relationshipHistory := exC5Y.relationshipHistory ++ [e],
                       relationshipStatus := .single, coupleId := none,
                       pastRelationshipExists := true }
        ∧ e.initiatedBreakup = false ∧ e.endDate = 172800005)
    ∧ exC5After.memories = exC5State.memories.map (fun m =>
        if m.coupleId == exC5Couple.id && m.status == MemoryStatus.active
        then { m with status := MemoryStatus.archived } else m)
    ∧ (exC5After.reviews = exC5State.reviews ++
        [{ coupleId := exC5Couple.id, reviewText := jsSlice (jsTrim " nice ") 300 }]
       ∧ (jsSlice (jsTrim " nice ") 300).length ≤ 300) := by
  have H := breakup_cascade exC5State exC5After exC5X exC5Y (some " nice ") 172800005 10
    exC5Couple rfl (by decide) rfl (by decide) (by decide) (by decide) (by decide)
  exact ⟨H.1, H.2.1, H.2.2.1, H.2.2.2.1, H.2.2.2.2 " nice " rfl (by decide)⟩

/-- Witness for C9: in the concrete dissolution run the recorded duration is
exactly two whole days, the floor of (172800005 - 5) / 86400000. -/
theorem breakup_duration_days_witness :
    ∃ e ep : RelationshipHistoryEntry,
      findUserById exC5After exC5X.id = some
        { exC5X with relationshipHistory := exC5X.relationshipHistory ++ [e],
                     relationshipStatus := .single, coupleId := none,
                     pastRelationshipExists := true }
      ∧ findUserById exC5After exC5Y.id = some
        { exC5Y with relationshipHistory := exC5Y.relationshipHistory ++ [ep],
                     relationshipStatus := .single, coupleId := none,
                     pastRelationshipExists := true }
      ∧ e.startDate = exC5Couple.relationshipStartDate.getD 5
      ∧ e.durationDays =
          (((172800005 - exC5Couple.relationshipStartDate.getD 5) / msPerDay : Nat) : Int)
      ∧ ep.startDate = e.startDate
      ∧ ep.durationDays = e.durationDays :=
  breakup_duration_days exC5State exC5After exC5X exC5Y (some " nice ") 172800005 10 5
    exC5Couple rfl (by decide) rfl (by decide) (by decide) (by decide) (by decide) (by decide)
    (by decide)

/-- C7: streak recomputation on every Submit, at midnight resolution: when
both partners' last-submission instants fall on today after the submission,
the current streak increments by exactly 1 if the stored last qualifying day
was exactly yesterday, resets to 1 (never 0) if the last qualifying day was
neither yesterday nor already today (or absent), and is left unchanged on a
same-day re-submission; the last qualifying day is then set to today and the
historical maximum is raised exactly when exceeded and never decreases; when
only one partner has submitted today, the only field that changes is that
partner's last-submission timestamp. -/
theorem streak_recomputation (st : Streak) (isPartner1 : Bool) (now : Nat) :
    (bothPostedToday st isPartner1 now = true →
      ∀ d, st.lastStreakDate = some d → dayStart d = dayStart now - msPerDay →
        (updateStreakOnUpload st isPartner1 now).currentStreak = st.currentStreak + 1)
    ∧ (bothPostedToday st isPartner1 now = true → st.lastStreakDate = none →
        (updateStreakOnUpload st isPartner1 now).currentStreak = 1)
    ∧ (bothPostedToday st isPartner1 now = true →
        ∀ d, st.lastStreakDate = some d → dayStart d ≠ dayStart now - msPerDay →
          dayStart d ≠ dayStart now →
          (updateStreakOnUpload st isPartner1 now).currentStreak = 1)
    ∧ (bothPostedToday st isPartner1 now = true →
        ∀ d, st.lastStreakDate = some d → dayStart d ≠ dayStart now - msPerDay →
          dayStart d = dayStart now →
          (updateStreakOnUpload st isPartner1 now).currentStreak = st.currentStreak)
    ∧ (bothPostedToday st isPartner1 now = true →
        (updateStreakOnUpload st isPartner1 now).lastStreakDate = some (dayStart now))
    ∧ st.longestStreak ≤ (updateStreakOnUpload st isPartner1 now).longestStreak
    ∧ (bothPostedToday st isPartner1 now = true →
        (updateStreakOnUpload st isPartner1 now).longestStreak =
          max st.longestStreak (updateStreakOnUpload st isPartner1 now).currentStreak)
    ∧ (bothPostedToday st isPartner1 now = false →
        updateStreakOnUpload st isPartner1 now =
          (if isPartner1 then { st with partner1LastPhoto := some now }
           else { st with partner2LastPhoto := some now })) := by
  refine ⟨?_, ?_, ?_, ?_, ?_, ?_, ?_, ?_⟩
  · intro hb d hd hyest
    cases isPartner1 <;>
      (simp only [updateStreakOnUpload, bothPostedToday] at hb ⊢
       rw [hb, hd]
       simp [hyest]) <;>
      split <;> rfl
  · intro hb hnone
    cases isPartner1 <;>
      (simp only [updateStreakOnUpload, bothPostedToday] at hb ⊢
       rw [hb, hnone]
       simp) <;>
      split <;> rfl
  · intro hb d hd hyest htoday
    have h1 : (dayStart d == dayStart now - msPerDay) = false := by simp [hyest]
    have h2 : (dayStart d != dayStart now) = true := by simp [htoday]
    cases isPartner1 <;>
      (simp only [updateStreakOnUpload, bothPostedToday] at hb ⊢
       rw [hb, hd]
       simp [h1, h2]) <;>
      split <;> rfl
  · intro hb d hd hyest htoday
    have h1 : (dayStart d == dayStart now - msPerDay) = false := by simp [hyest]
    have h2 : (dayStart d != dayStart now) = false := by simp [htoday]
    cases isPartner1 <;>
      (simp only [updateStreakOnUpload, bothPostedToday] at hb ⊢
       rw [hb, hd]
       simp [h1, h2]) <;>
      split <;> rfl
  · intro hb
    cases isPartner1 <;>
      (simp only [updateStreakOnUpload, bothPostedToday] at hb ⊢
       rw [hb]
       cases hd : st.lastStreakDate <;>
         simp_all <;>
         split_ifs <;>
         rfl)
  · cases isPartner1 <;>
      (simp only [updateStreakOnUpload]
       cases hd : st.lastStreakDate <;>
         simp_all <;>
         split_ifs <;>
         first
           | omega
           | (dsimp only at *; omega))
  · intro hb
    cases isPartner1 <;>
      (simp only [updateStreakOnUpload, bothPostedToday] at hb ⊢
       rw [hb]
       cases hd : st.lastStreakDate <;>
         simp_all <;>
         split_ifs <;>
         first
           | omega
           | (dsimp only at *; omega))
  · intro hb
    cases isPartner1 <;>
      (simp only [updateStreakOnUpload, bothPostedToday] at hb ⊢
       rw [hb]
       simp)

/-- Witness for C7: partner2's submission on the day after the last
qualifying day increments the streak to 4, stamps today as the qualifying
day and raises the historical maximum. -/
theorem streak_recomputation_witness :
    bothPostedToday exC7Streak false 172800010 = true
    ∧ (updateStreakOnUpload exC7Streak false 172800010).currentStreak =
        exC7Streak.currentStreak + 1
    ∧ (updateStreakOnUpload exC7Streak false 172800010).lastStreakDate =
        some (dayStart 172800010)
    ∧ (updateStreakOnUpload exC7Streak false 172800010).longestStreak =
        max exC7Streak.longestStreak
          (updateStreakOnUpload exC7Streak false 172800010).currentStreak := by
  have H := streak_recomputation exC7Streak false 172800010
  exact ⟨by decide, H.1 (by decide) 86400000 rfl (by decide),
    H.2.2.2.2.1 (by decide), H.2.2.2.2.2.2.1 (by decide)⟩
